import Mathlib

/-!
Verification of the viewport-fitting and coordinate-mapping core of the
counter-strike-analytics frontend.

The embedded code:
* `getScaleFactor` and the `MapCanvas` render body (MapCanvas.tsx, the
  parameterized variant);
* the parameterized `PlayerMarker` (frontend/src/components/PlayerMarker.tsx);
* the fixed-viewport `PlayerMarker` (frontend/react/src/components/PlayerMarker.tsx).

Numbers are modelled by exact rationals `ℚ`; the source uses IEEE doubles, so
theorems here state the exact-arithmetic behaviour of the source formulas.
-/

/-- Team affiliation, from `Player.ts`: `export type Team = "T" | "CT"`. -/
inductive Team where
  | T : Team
  | CT : Team
deriving DecidableEq, Repr

/-- Player snapshot, from `Player.ts`. -/
structure Player where
  id : String
  name : String
  x : ℚ
  y : ℚ
  team : Team
  alive : Bool
deriving DecidableEq, Repr

/-- The scale/size triple returned by `getScaleFactor` in MapCanvas.tsx. -/
structure ScaleFit where
  scale : ℚ
  width : ℚ
  height : ℚ
deriving DecidableEq, Repr

/-- The decoded map image: intrinsic pixel width and height. -/
structure MapImage where
  width : ℚ
  height : ℚ
deriving DecidableEq, Repr

/-- Viewport dimensions, the `dimensions` state of MapCanvas.tsx. -/
structure Dimensions where
  width : ℚ
  height : ℚ
deriving DecidableEq, Repr

/-- A rendered marker circle: the props of the `Circle` node produced by
`PlayerMarker` (screen x, y, radius, fill color). -/
structure Marker where
  x : ℚ
  y : ℚ
  radius : ℚ
  fill : String
deriving DecidableEq, Repr

/-- The background `Image` node placed by MapCanvas.tsx: rendered size and
position. -/
structure BackgroundImage where
  width : ℚ
  height : ℚ
  x : ℚ
  y : ℚ
deriving DecidableEq, Repr

/-- One rendered frame of `MapCanvas`: at most one background image and a list
of marker circles. -/
structure RenderFrame where
  background : Option BackgroundImage
  markers : List Marker
deriving DecidableEq, Repr

/-- The body of `getScaleFactor` (MapCanvas.tsx lines 43-55) once the image is
available, with the padding constant abstracted as a parameter — this is the
spec's `fitToViewport` computation:
`availableWidth = vw - padding`, `availableHeight = vh - padding`,
`scaleX = availableWidth / mapW`, `scaleY = availableHeight / mapH`,
`scale = min scaleX scaleY`, `width = mapW * scale`, `height = mapH * scale`. -/
def fitToViewport (mapW mapH vw vh padding : ℚ) : ScaleFit :=
  let availableWidth := vw - padding
  let availableHeight := vh - padding
  let scaleX := availableWidth / mapW
  let scaleY := availableHeight / mapH
  let scale := min scaleX scaleY
  { scale := scale, width := mapW * scale, height := mapH * scale }

/-- `getScaleFactor` from MapCanvas.tsx: `if (!mapImage) return {scale: 1,
width: 0, height: 0}`, otherwise the fit computation with `padding = 40`. -/
def getScaleFactor (mapImage : Option MapImage) (dims : Dimensions) : ScaleFit :=
  match mapImage with
  | none => { scale := 1, width := 0, height := 0 }
  | some img => fitToViewport img.width img.height dims.width dims.height 40

/-- The team color picked by both `PlayerMarker` variants:
`player.team === "CT" ? "#4da6ff" : "#ffb347"`. -/
def teamColor (team : Team) : String :=
  if team = Team.CT then "#4da6ff" else "#ffb347"

/-- The parameterized `PlayerMarker` (frontend/src/components/PlayerMarker.tsx):
returns `null` when the player is not alive, otherwise a `Circle` at
`(player.x * scale + offsetX, player.y * scale + offsetY)` with radius 5 and
the team color. -/
def playerMarker (player : Player) (scale offsetX offsetY : ℚ) : Option Marker :=
  let color := teamColor player.team
  if !player.alive then none
  else some { x := player.x * scale + offsetX, y := player.y * scale + offsetY,
              radius := 5, fill := color }

/-- The fixed-viewport `PlayerMarker`
(frontend/react/src/components/PlayerMarker.tsx): returns `null` when the
player is not alive, otherwise a `Circle` at `(player.x, player.y)` with
radius 5 and the team color. -/
def playerMarkerSimple (player : Player) : Option Marker :=
  let color := teamColor player.team
  if !player.alive then none
  else some { x := player.x, y := player.y, radius := 5, fill := color }

/-- The spec's `toScreen` map, as implemented inline by the parameterized
`PlayerMarker`: `screenX = mapX * scale + offsetX`,
`screenY = mapY * scale + offsetY`. -/
def toScreen (mapX mapY scale offsetX offsetY : ℚ) : ℚ × ℚ :=
  (mapX * scale + offsetX, mapY * scale + offsetY)

/-- The render body of `MapCanvas` (MapCanvas.tsx lines 58-84): computes
`getScaleFactor`, draws the background image only when `mapImage` is present,
at position `((dims.width - width) / 2, (dims.height - height) / 2)`, and maps
every player through `PlayerMarker` with the shared scale and the same offsets
(the `null` returns of dead players produce no node, hence `filterMap`). -/
def mapCanvasRender (mapImage : Option MapImage) (dims : Dimensions)
    (players : List Player) : RenderFrame :=
  let f := getScaleFactor mapImage dims
  let background := mapImage.map fun _ =>
    ({ width := f.width, height := f.height,
       x := (dims.width - f.width) / 2,
       y := (dims.height - f.height) / 2 } : BackgroundImage)
  let markers := players.filterMap fun p =>
    playerMarker p f.scale ((dims.width - f.width) / 2) ((dims.height - f.height) / 2)
  { background := background, markers := markers }

/-- C1: for positive map dimensions, the fitted rectangle satisfies
`renderedWidth ≤ viewportWidth - padding` and
`renderedHeight ≤ viewportHeight - padding`, with equality on at least one
axis (the binding axis is tight). -/
theorem fitToViewport_within_available (mapW mapH vw vh padding : ℚ)
    (hW : 0 < mapW) (hH : 0 < mapH) :
    (fitToViewport mapW mapH vw vh padding).width ≤ vw - padding ∧
    (fitToViewport mapW mapH vw vh padding).height ≤ vh - padding ∧
    ((fitToViewport mapW mapH vw vh padding).width = vw - padding ∨
     (fitToViewport mapW mapH vw vh padding).height = vh - padding) := by
  have hW0 : mapW ≠ 0 := ne_of_gt hW
  have hH0 : mapH ≠ 0 := ne_of_gt hH
  simp only [fitToViewport]
  refine ⟨?_, ?_, ?_⟩
  · calc mapW * min ((vw - padding) / mapW) ((vh - padding) / mapH)
        ≤ mapW * ((vw - padding) / mapW) :=
          mul_le_mul_of_nonneg_left (min_le_left _ _) hW.le
      _ = vw - padding := by field_simp
  · calc mapH * min ((vw - padding) / mapW) ((vh - padding) / mapH)
        ≤ mapH * ((vh - padding) / mapH) :=
          mul_le_mul_of_nonneg_left (min_le_right _ _) hH.le
      _ = vh - padding := by field_simp
  · rcases min_cases ((vw - padding) / mapW) ((vh - padding) / mapH) with
      ⟨hmin, _⟩ | ⟨hmin, _⟩
    · left
      rw [hmin]
      field_simp
    · right
      rw [hmin]
      field_simp

/-- Witness for C1 at the spec's concrete scenario
(map 1024×1024, viewport 1000×800, padding 40). -/
theorem fitToViewport_within_available_witness :
    (fitToViewport 1024 1024 1000 800 40).width ≤ 1000 - 40 ∧
    (fitToViewport 1024 1024 1000 800 40).height ≤ 800 - 40 ∧
    ((fitToViewport 1024 1024 1000 800 40).width = 1000 - 40 ∨
     (fitToViewport 1024 1024 1000 800 40).height = 800 - 40) :=
  fitToViewport_within_available 1024 1024 1000 800 40 (by norm_num) (by norm_num)

/-- C2: for positive map dimensions, whenever the rendered height is nonzero,
the fitted rectangle preserves the map's aspect ratio exactly:
`renderedWidth / renderedHeight = mapWidth / mapHeight`. -/
theorem fitToViewport_aspect_ratio (mapW mapH vw vh padding : ℚ)
    (hW : 0 < mapW) (hH : 0 < mapH)
    (hne : (fitToViewport mapW mapH vw vh padding).height ≠ 0) :
    (fitToViewport mapW mapH vw vh padding).width /
      (fitToViewport mapW mapH vw vh padding).height = mapW / mapH := by
  simp only [fitToViewport] at hne ⊢
  set s := min ((vw - padding) / mapW) ((vh - padding) / mapH) with hs
  have hs0 : s ≠ 0 := by
    intro h
    apply hne
    rw [h, mul_zero]
  rw [mul_comm mapW s, mul_comm mapH s]
  exact mul_div_mul_left mapW mapH hs0

/-- Witness for C2 at the spec's scenario: map 1024×1024, viewport 1000×800,
padding 40, where the rendered height is 760. -/
theorem fitToViewport_aspect_ratio_witness :
    0 < (1024 : ℚ) ∧ (fitToViewport 1024 1024 1000 800 40).height ≠ 0 ∧
    (fitToViewport 1024 1024 1000 800 40).width /
      (fitToViewport 1024 1024 1000 800 40).height = 1024 / 1024 :=
  ⟨by norm_num,
   by norm_num [fitToViewport],
   fitToViewport_aspect_ratio 1024 1024 1000 800 40 (by norm_num) (by norm_num)
     (by norm_num [fitToViewport])⟩

/-- C3: in every frame rendered with a loaded image, the background is placed
at `offsetX = (viewportWidth - renderedWidth) / 2`,
`offsetY = (viewportHeight - renderedHeight) / 2`, and every marker in the
frame is an alive player's position mapped through `toScreen` with the same
scale and the same two offsets. -/
theorem mapCanvasRender_centered (img : MapImage) (dims : Dimensions)
    (players : List Player) :
    (mapCanvasRender (some img) dims players).background =
      some { width := (getScaleFactor (some img) dims).width,
             height := (getScaleFactor (some img) dims).height,
             x := (dims.width - (getScaleFactor (some img) dims).width) / 2,
             y := (dims.height - (getScaleFactor (some img) dims).height) / 2 } ∧
    ∀ m ∈ (mapCanvasRender (some img) dims players).markers,
      ∃ p ∈ players, p.alive = true ∧
        (m.x, m.y) = toScreen p.x p.y (getScaleFactor (some img) dims).scale
          ((dims.width - (getScaleFactor (some img) dims).width) / 2)
          ((dims.height - (getScaleFactor (some img) dims).height) / 2) := by
  refine ⟨rfl, ?_⟩
  intro m hm
  simp only [mapCanvasRender, List.mem_filterMap] at hm
  obtain ⟨p, hp, hmk⟩ := hm
  rcases ha : p.alive with _ | _
  · exfalso
    simp [playerMarker, ha] at hmk
  · refine ⟨p, hp, ha, ?_⟩
    simp [playerMarker, ha] at hmk
    rw [← hmk]
    rfl

/-- C4: the parameterized `PlayerMarker` places every alive player's circle at
exactly `toScreen` of its map-space position — `screenX = x * scale + offsetX`,
`screenY = y * scale + offsetY` — for every scale and offset, with no bounds
checking or clamping of the result. -/
theorem playerMarker_toScreen (p : Player) (scale offsetX offsetY : ℚ)
    (h : p.alive = true) :
    toScreen p.x p.y scale offsetX offsetY =
      (p.x * scale + offsetX, p.y * scale + offsetY) ∧
    playerMarker p scale offsetX offsetY =
      some { x := p.x * scale + offsetX, y := p.y * scale + offsetY,
             radius := 5, fill := teamColor p.team } := by
  refine ⟨rfl, ?_⟩
  simp [playerMarker, h]

/-- Witness for C4 at a far off-screen input: a player at map position
(1000000, -500), scale 3, offsets (7, 9), alive — the marker is produced
unclamped at (3000007, -1491). -/
theorem playerMarker_toScreen_witness :
    (⟨"1", "s1mple", 1000000, -500, Team.T, true⟩ : Player).alive = true ∧
    playerMarker ⟨"1", "s1mple", 1000000, -500, Team.T, true⟩ 3 7 9 =
      some { x := 1000000 * 3 + 7, y := -500 * 3 + 9,
             radius := 5, fill := teamColor Team.T } :=
  ⟨rfl, (playerMarker_toScreen ⟨"1", "s1mple", 1000000, -500, Team.T, true⟩
    3 7 9 rfl).2⟩

/-- C5 counterexample: with map 100×100, viewport 20×20, padding 40, the
available space is -20 on both axes, yet the returned transform has
renderedWidth = renderedHeight = -20, not 0 — the code never clamps a
non-positive scale. -/
theorem fitToViewport_degenerate_not_zero :
    ¬ ((fitToViewport 100 100 20 20 40).width = 0 ∧
       (fitToViewport 100 100 20 20 40).height = 0) := by
  intro h
  have := h.1
  norm_num [fitToViewport] at this

/-- C5 amended: if the available space after padding is ≤ 0 on some axis, no
error is raised (the function is total) and the returned renderedWidth and
renderedHeight are both non-positive (equal to mapWidth × scale and
mapHeight × scale with scale ≤ 0), not necessarily 0. -/
theorem fitToViewport_degenerate_nonpos (mapW mapH vw vh padding : ℚ)
    (hW : 0 < mapW) (hH : 0 < mapH)
    (h : vw - padding ≤ 0 ∨ vh - padding ≤ 0) :
    (fitToViewport mapW mapH vw vh padding).width ≤ 0 ∧
    (fitToViewport mapW mapH vw vh padding).height ≤ 0 := by
  have hscale : min ((vw - padding) / mapW) ((vh - padding) / mapH) ≤ 0 := by
    rcases h with h | h
    · exact le_trans (min_le_left _ _) (div_nonpos_of_nonpos_of_nonneg h hW.le)
    · exact le_trans (min_le_right _ _) (div_nonpos_of_nonpos_of_nonneg h hH.le)
  simp only [fitToViewport]
  exact ⟨mul_nonpos_of_nonneg_of_nonpos hW.le hscale,
         mul_nonpos_of_nonneg_of_nonpos hH.le hscale⟩

/-- Witness for the amended C5 at map 100×100, viewport 20×20, padding 40. -/
theorem fitToViewport_degenerate_nonpos_witness :
    0 < (100 : ℚ) ∧ (20 : ℚ) - 40 ≤ 0 ∧
    (fitToViewport 100 100 20 20 40).width ≤ 0 ∧
    (fitToViewport 100 100 20 20 40).height ≤ 0 :=
  ⟨by norm_num, by norm_num,
   fitToViewport_degenerate_nonpos 100 100 20 20 40 (by norm_num) (by norm_num)
     (Or.inl (by norm_num))⟩

/-- C6: a player whose alive flag is false produces no marker: the
parameterized `PlayerMarker` returns none for every scale and offset, the
fixed-viewport variant returns none, and prepending such a player to any
entity list leaves the rendered marker list of `MapCanvas` unchanged. -/
theorem dead_player_no_marker (p : Player) (scale offsetX offsetY : ℚ)
    (mi : Option MapImage) (dims : Dimensions) (players : List Player)
    (h : p.alive = false) :
    playerMarker p scale offsetX offsetY = none ∧
    playerMarkerSimple p = none ∧
    (mapCanvasRender mi dims (p :: players)).markers =
      (mapCanvasRender mi dims players).markers := by
  refine ⟨?_, ?_, ?_⟩
  · simp [playerMarker, h]
  · simp [playerMarkerSimple, h]
  · simp [mapCanvasRender, playerMarker, h]

/-- Witness for C6: a concrete dead player contributes no marker anywhere. -/
theorem dead_player_no_marker_witness :
    (⟨"2", "device", 450, 350, Team.CT, false⟩ : Player).alive = false ∧
    playerMarker ⟨"2", "device", 450, 350, Team.CT, false⟩ 1 0 0 = none ∧
    playerMarkerSimple ⟨"2", "device", 450, 350, Team.CT, false⟩ = none ∧
    (mapCanvasRender none ⟨800, 600⟩
        [⟨"2", "device", 450, 350, Team.CT, false⟩]).markers =
      (mapCanvasRender none ⟨800, 600⟩ ([] : List Player)).markers :=
  ⟨rfl,
   (dead_player_no_marker ⟨"2", "device", 450, 350, Team.CT, false⟩ 1 0 0
      none ⟨800, 600⟩ [] rfl).1,
   (dead_player_no_marker ⟨"2", "device", 450, 350, Team.CT, false⟩ 1 0 0
      none ⟨800, 600⟩ [] rfl).2.1,
   (dead_player_no_marker ⟨"2", "device", 450, 350, Team.CT, false⟩ 1 0 0
      none ⟨800, 600⟩ [] rfl).2.2⟩

/-- C7 counterexample: before the map image has loaded, rendering an entity
list with one alive player produces a non-empty marker list — the code maps
every player through `PlayerMarker` unconditionally, so markers are drawn
even in the AwaitingAsset state, contradicting "zero markers". -/
theorem awaiting_asset_markers_not_empty :
    (mapCanvasRender none ⟨800, 600⟩
      [⟨"1", "s1mple", 400, 300, Team.T, true⟩]).markers ≠ [] := by
  decide

/-- C7 amended: while the map image has not loaded, the frame has no
background image, but markers are still produced: every alive player is drawn
at scale 1 with offsets (viewportWidth / 2, viewportHeight / 2); after the
image-ready event, the next render with the same entities produces the
expected marker set (every player mapped through `PlayerMarker` with the
fitted transform and centering offsets). -/
theorem awaiting_asset_render (dims : Dimensions) (players : List Player)
    (img : MapImage) :
    (mapCanvasRender none dims players).background = none ∧
    (mapCanvasRender none dims players).markers =
      players.filterMap (fun p =>
        playerMarker p 1 (dims.width / 2) (dims.height / 2)) ∧
    (mapCanvasRender (some img) dims players).markers =
      players.filterMap (fun p =>
        playerMarker p (getScaleFactor (some img) dims).scale
          ((dims.width - (getScaleFactor (some img) dims).width) / 2)
          ((dims.height - (getScaleFactor (some img) dims).height) / 2)) := by
  refine ⟨rfl, ?_, rfl⟩
  simp [mapCanvasRender, getScaleFactor]

/-- C8: `fitToViewport` is a pure function of its five arguments — two calls
with identical mapWidth, mapHeight, viewportWidth, viewportHeight and padding
yield identical transforms. -/
theorem fitToViewport_deterministic (mW₁ mH₁ vw₁ vh₁ pad₁ mW₂ mH₂ vw₂ vh₂ pad₂ : ℚ)
    (h1 : mW₁ = mW₂) (h2 : mH₁ = mH₂) (h3 : vw₁ = vw₂) (h4 : vh₁ = vh₂)
    (h5 : pad₁ = pad₂) :
    fitToViewport mW₁ mH₁ vw₁ vh₁ pad₁ = fitToViewport mW₂ mH₂ vw₂ vh₂ pad₂ := by
  rw [h1, h2, h3, h4, h5]

/-- Witness for C8 at the spec's scenario arguments. -/
theorem fitToViewport_deterministic_witness :
    fitToViewport 1024 1024 1000 800 40 = fitToViewport 1024 1024 1000 800 40 :=
  fitToViewport_deterministic 1024 1024 1000 800 40 1024 1024 1000 800 40
    rfl rfl rfl rfl rfl

/-- C9: the fixed-viewport `PlayerMarker` variant is the parameterized
variant's degenerate case: for every player it renders exactly what the
parameterized variant renders at scale = 1, offsetX = 0, offsetY = 0 — same
position, radius, color, and liveness filtering. -/
theorem playerMarkerSimple_degenerate (p : Player) :
    playerMarkerSimple p = playerMarker p 1 0 0 := by
  rcases h : p.alive with _ | _ <;>
    simp [playerMarkerSimple, playerMarker, h]

/-- C10: when the map image is absent, `getScaleFactor` returns scale = 1
with width and height 0, so the offsets are half the viewport dimensions and
the rendered marker list places every alive player at
(x + viewportWidth / 2, y + viewportHeight / 2). -/
theorem absent_image_render (dims : Dimensions) (players : List Player) :
    getScaleFactor none dims = { scale := 1, width := 0, height := 0 } ∧
    (mapCanvasRender none dims players).markers =
      players.filterMap (fun p =>
        if p.alive then
          some { x := p.x + dims.width / 2, y := p.y + dims.height / 2,
                 radius := 5, fill := teamColor p.team }
        else none) := by
  refine ⟨rfl, ?_⟩
  simp only [mapCanvasRender, getScaleFactor]
  apply List.filterMap_congr
  intro p _
  rcases h : p.alive with _ | _ <;> simp [playerMarker, h]
